import Mathlib

/-!
# Verification of the SEO audit content-scoring engine

Shallow embedding of the content-scoring core of `src/server.js`
(`mariedelambreredactionweb-crypto/audit-seo-v1`): text normalization,
keyword-presence matching, the paragraph/image feature extraction, the eight
per-check rules and the status aggregation policy.

The repository file contains two near-identical revisions of the server.
Definitions for the first revision keep the source names
(`cleanText`, `charCount`, `containsKeywordExact`, `computeChecks`,
`statusGlobalFromChecks`, ...); the blocks where the second revision differs
are embedded as `...2` variants (`titleStatus2`, `metaStatus2`, `ksStatus2`,
`statusGlobalFromChecks2`).

Modelling conventions:
* a JavaScript string is a list of Unicode code points (`Str := List Char`);
  `s.length` in JavaScript counts UTF-16 code units and is embedded as
  `utf16Len`, while `Array.from(s).length` counts code points and is embedded
  as `List.length` of the cleaned list (`charCount`);
* the regex character classes are modelled on the character repertoire that
  actually occurs in this development: `\s` as space/tab/newline/carriage
  return, `\p{L}` as `Char.isAlpha`, `\p{N}` as `Char.isDigit`, `toLowerCase`
  as `Char.toLower`, and the NFD decomposition used by `stripAccents` by a
  table for the precomposed Latin letters of the French copy;
* the presentation strings (`label`, `message`, `action`) attached to each
  check are omitted: per the specification they are out of the audited core,
  and no claim mentions them.
-/

namespace AuditSeo

/-- A JavaScript string, as its list of Unicode code points. -/
abbrev Str := List Char

/-- Embed a Lean string literal as a `Str`. -/
def str (s : String) : Str := s.data

/-- The JavaScript `\s` class, restricted to the whitespace characters
occurring in this development. -/
def isJsSpace (c : Char) : Bool :=
  c == ' ' || c == '\t' || c == '\n' || c == '\r'

/-- Collapse runs of consecutive spaces to a single space
(second half of `replace(/\s+/g, " ")`). -/
def squeeze : Str → Str
  | [] => []
  | [c] => [c]
  | a :: b :: t =>
    if a = ' ' ∧ b = ' ' then squeeze (b :: t) else a :: squeeze (b :: t)

/-- JavaScript `trim` on a string whose whitespace is only `' '`. -/
def trimStr (s : Str) : Str :=
  ((s.dropWhile (· = ' ')).reverse.dropWhile (· = ' ')).reverse

/-- `cleanText(s)`: `String(s || "").replace(/\s+/g, " ").trim()` —
collapse every whitespace run to a single space, then trim. -/
def cleanText (s : Str) : Str :=
  trimStr (squeeze (s.map fun c => if isJsSpace c then ' ' else c))

/-- `charCount(s)`: `Array.from(cleanText(s)).length` — the number of Unicode
code points of the cleaned string. -/
def charCount (s : Str) : Nat :=
  (cleanText s).length

/-- JavaScript `s.length`: the number of UTF-16 code units (code points at or
above `0x10000` take two units). -/
def utf16Len (s : Str) : Nat :=
  (s.map fun c => if c.toNat < 0x10000 then 1 else 2).sum

/-- Canonical (NFD) decomposition, tabulated for the precomposed Latin
letters of the French copy; identity elsewhere. -/
def nfdChar (c : Char) : Str :=
  if c = 'à' then ['a', '̀']
  else if c = 'â' then ['a', '̂']
  else if c = 'ç' then ['c', '̧']
  else if c = 'é' then ['e', '́']
  else if c = 'è' then ['e', '̀']
  else if c = 'ê' then ['e', '̂']
  else if c = 'ë' then ['e', '̈']
  else if c = 'î' then ['i', '̂']
  else if c = 'ï' then ['i', '̈']
  else if c = 'ô' then ['o', '̂']
  else if c = 'ù' then ['u', '̀']
  else if c = 'û' then ['u', '̂']
  else if c = 'ü' then ['u', '̈']
  else [c]

/-- `stripAccents(s)`: NFD normalization followed by removal of the combining
diacritical marks `U+0300`–`U+036F`. -/
def stripAccents (s : Str) : Str :=
  ((s.map nfdChar).flatten).filter fun c => !(0x300 ≤ c.toNat ∧ c.toNat ≤ 0x36F)

/-- The JavaScript `\p{L}` class, restricted to the letters occurring in this
development (after `stripAccents` every letter in play is ASCII). -/
def jsIsLetter (c : Char) : Bool := c.isAlpha

/-- `normalizeForMatch(s)`: clean, lowercase, strip accents, and drop every
character that is not a letter, a digit or whitespace. -/
def normalizeForMatch (s : Str) : Str :=
  (stripAccents ((cleanText s).map Char.toLower)).filter fun c =>
    jsIsLetter c || c.isDigit || isJsSpace c

/-- JavaScript `hay.includes(needle)`: substring containment. -/
def containsSub : Str → Str → Bool
  | [], needle => needle.isEmpty
  | c :: t, needle => needle.isPrefixOf (c :: t) || containsSub t needle

/-- `containsKeywordExact(text, keyword)` (revision 1): normalize both sides;
false when either normalizes to empty, otherwise substring containment. -/
def containsKeywordExact (text keyword : Str) : Bool :=
  let t := normalizeForMatch text
  let k := normalizeForMatch keyword
  if t.isEmpty || k.isEmpty then false else containsSub t k

/-- `containsKeyword(text, keyword)` (revision 2): same body as
`containsKeywordExact`. -/
def containsKeyword (text keyword : Str) : Bool :=
  let t := normalizeForMatch text
  let k := normalizeForMatch keyword
  if t.isEmpty || k.isEmpty then false else containsSub t k

/-- JavaScript `s.split(sep)` for a one-character separator: `n` separators
yield `n + 1` (possibly empty) segments. -/
def jsSplit (sep : Char) : Str → List Str
  | [] => [[]]
  | c :: cs =>
    let rest := jsSplit sep cs
    if c = sep then [] :: rest
    else
      match rest with
      | [] => [[c]]
      | r :: rs => (c :: r) :: rs

/-- `wordsCount(s)`: 0 for an empty cleaned string, otherwise the number of
space-separated segments of the cleaned string. -/
def wordsCount (s : Str) : Nat :=
  let t := cleanText s
  if t.isEmpty then 0 else (jsSplit ' ' t).length

/-! ## Feature extraction

The route handler feeds the already-extracted plain text lists (the
`PageSnapshot` of the specification) through `extractFirstParagraph`,
`extractLastParagraph`, `extractParagraphs` and `extractImages`; the cheerio
element lists are embedded as the corresponding lists of raw strings. -/

/-- The raw `src`/`alt` attribute pair of an `img` element (a missing
attribute is the empty string). -/
structure Image where
  src : Str
  alt : Str
deriving DecidableEq, Repr

/-- `extractFirstParagraph`: the first paragraph whose cleaned text has
JavaScript length (UTF-16 units) at least 40, or empty. -/
def extractFirstParagraph (ps : List Str) : Str :=
  (((ps.map cleanText).filter fun t => 40 ≤ utf16Len t).headD [])

/-- `extractLastParagraph`: the last paragraph passing the same filter,
or empty. -/
def extractLastParagraph (ps : List Str) : Str :=
  (((ps.map cleanText).filter fun t => 40 ≤ utf16Len t).getLastD [])

/-- `extractParagraphs`: all paragraphs whose cleaned text is non-empty. -/
def extractParagraphs (ps : List Str) : List Str :=
  (ps.map cleanText).filter fun t => 0 < utf16Len t

/-- `extractImages`: clean both attributes and keep only the images whose
cleaned `src` is non-empty. -/
def extractImages (imgs : List Image) : List Image :=
  (imgs.map fun i => Image.mk (cleanText i.src) (cleanText i.alt)).filter
    fun i => 0 < utf16Len i.src

/-! ## The feature record and the eight check rules (revision 1) -/

/-- The `extracted` object the route handler passes to `computeChecks`. -/
structure Extracted where
  title : Str
  meta_description : Str
  h1s : List Str
  h2s : List Str
  intro : Str
  conclusion : Str
  images_count : Nat
  images_missing_alt_count : Nat
  avg_words_per_paragraph : Nat
  long_paragraphs_count : Nat
deriving DecidableEq, Repr

/-- The rule-specific evidence each check emits in its `data` field. -/
inductive CheckData where
  | lenVal (length : Nat) (value : Str)
  | h1data (count : Nat) (values : List Str)
  | kw3 (ok_intro ok_h2 ok_conclusion : Bool) (missing : List String)
  | kw4 (ok_h1 ok_intro ok_h2 ok_conclusion : Bool) (missing : List String)
  | h2count (n : Nat)
  | imagesData (images_count images_missing_alt_count : Nat)
  | readabilityData (avg_words_per_paragraph long_paragraphs_count : Nat)
  | lexicalData (found expected : List Str) (found_count : Nat)
deriving DecidableEq, Repr

/-- One check result: stable id, traffic-light status, evidence. -/
structure Check where
  id : String
  status : String
  data : CheckData
deriving DecidableEq, Repr

/-- Placeholder check used as the default of list lookups. -/
def cDefault : Check := ⟨"", "", CheckData.h2count 0⟩

/-- Title block, revision 1: red when the cleaned title has zero code points,
green when its code-point count is between 45 and 60, orange otherwise. -/
def titleStatus (title : Str) : String :=
  if 0 < charCount title then
    if 45 ≤ charCount title ∧ charCount title ≤ 60 then "green" else "orange"
  else "red"

/-- Meta-description block, revision 1: red when empty, green on 120–160
code points; both the 70–119 / 161–200 branch and the final `else` of the
source produce orange. -/
def metaStatus (meta : Str) : String :=
  if 0 < charCount meta then
    if 120 ≤ charCount meta ∧ charCount meta ≤ 160 then "green"
    else if (70 ≤ charCount meta ∧ charCount meta ≤ 119) ∨
            (161 ≤ charCount meta ∧ charCount meta ≤ 200) then "orange"
    else "orange"
  else "red"

/-- H1 block (both revisions): red unless there is exactly one H1, then green
exactly when the whole normalized keyword occurs in it. -/
def h1Status (h1s : List Str) (keyword : Str) : String :=
  if h1s.length = 1 then
    if containsKeywordExact (h1s.headD []) keyword then "green" else "orange"
  else "red"

/-- `okIntroExact`: `intro ? containsKeywordExact(intro, keyword) : false`. -/
def okIntroExact (intro keyword : Str) : Bool :=
  if intro.isEmpty then false else containsKeywordExact intro keyword

/-- `okH2Exact`: some H2 contains the exact normalized keyword. -/
def okH2Exact (h2s : List Str) (keyword : Str) : Bool :=
  if h2s.isEmpty then false
  else h2s.any fun h2 => containsKeywordExact h2 keyword

/-- `okConcExact`: `conclusion ? containsKeywordExact(conclusion, keyword) : false`. -/
def okConcExact (conclusion keyword : Str) : Bool :=
  if conclusion.isEmpty then false else containsKeywordExact conclusion keyword

/-- `missingExact`: the locations (in order intro, H2, conclusion) where the
exact keyword was not found. -/
def missingExact (e : Extracted) (keyword : Str) : List String :=
  (if okIntroExact e.intro keyword then [] else ["intro"]) ++
  (if okH2Exact e.h2s keyword then [] else ["H2"]) ++
  (if okConcExact e.conclusion keyword then [] else ["conclusion"])

/-- `exactCount`: `[okIntroExact, okH2Exact, okConcExact].filter(Boolean).length`. -/
def exactCount (e : Extracted) (keyword : Str) : Nat :=
  (([okIntroExact e.intro keyword, okH2Exact e.h2s keyword,
     okConcExact e.conclusion keyword]).filter fun b => b).length

/-- Keyword-in-structure block, revision 1 (`keyword_exact_structure`):
green on 3 of 3 locations, orange on exactly 2, red otherwise. -/
def exactStatus (e : Extracted) (keyword : Str) : String :=
  if exactCount e keyword = 3 then "green"
  else if exactCount e keyword = 2 then "orange"
  else "red"

/-- Structure block (both revisions): green on at least two H2 headings,
orange on exactly one, red on none. -/
def structureStatus (h2Count : Nat) : String :=
  if 2 ≤ h2Count then "green"
  else if h2Count = 1 then "orange"
  else "red"

/-- Images block (both revisions): red on zero images, orange when at least
one image lacks alt text, green otherwise. -/
def imgStatus (imgCount missingAlt : Nat) : String :=
  if 0 < imgCount then
    if 0 < missingAlt then "orange" else "green"
  else "red"

/-- Readability block (both revisions): red on at least three long
paragraphs, orange on one or two, green on none. -/
def readStatus (longP : Nat) : String :=
  if 3 ≤ longP then "red"
  else if 1 ≤ longP then "orange"
  else "green"

/-- The fixed generic vocabulary of the lexical-field block. -/
def genericTerms : List Str :=
  [str "google", str "referencement", str "seo", str "site", str "page",
   str "contenu", str "visibilite"]

/-- Keyword tokens for the lexical block: normalized keyword split on spaces,
trimmed, keeping tokens of length at least 4. -/
def kwParts (keyword : Str) : List Str :=
  ((jsSplit ' ' (normalizeForMatch keyword)).map trimStr).filter
    fun w => 4 ≤ w.length

/-- De-duplication preserving first occurrences
(`Array.from(new Set(...))`). -/
def dedupFirstAux (seen : List Str) : List Str → List Str
  | [] => []
  | x :: xs =>
    if x ∈ seen then dedupFirstAux seen xs
    else x :: dedupFirstAux (x :: seen) xs

/-- `Array.from(new Set(generic ++ kwParts))`: expected lexical terms. -/
def lexExpected (keyword : Str) : List Str :=
  dedupFirstAux [] (genericTerms ++ kwParts keyword)

/-- The normalized concatenation (space separated) of title, meta
description, all H1s, all H2s, intro and conclusion. -/
def bodyText (e : Extracted) : Str :=
  normalizeForMatch
    (e.title ++ str " " ++ e.meta_description ++ str " " ++
     List.intercalate (str " ") e.h1s ++ str " " ++
     List.intercalate (str " ") e.h2s ++ str " " ++
     e.intro ++ str " " ++ e.conclusion)

/-- The expected lexical terms found as substrings of `bodyText`. -/
def lexFound (e : Extracted) (keyword : Str) : List Str :=
  (lexExpected keyword).filter fun term => containsSub (bodyText e) term

/-- Lexical block (both revisions): green on at least 4 found terms, orange
on 2 or 3, red on 0 or 1. -/
def lexStatus (e : Extracted) (keyword : Str) : String :=
  if 4 ≤ (lexFound e keyword).length then "green"
  else if 2 ≤ (lexFound e keyword).length then "orange"
  else "red"

/-- `computeChecks` (revision 1): the ordered list of the eight check
results. -/
def computeChecks (e : Extracted) (keyword : Str) : List Check :=
  [⟨"title", titleStatus e.title, CheckData.lenVal (charCount e.title) e.title⟩,
   ⟨"meta_description", metaStatus e.meta_description,
     CheckData.lenVal (charCount e.meta_description) e.meta_description⟩,
   ⟨"h1", h1Status e.h1s keyword, CheckData.h1data e.h1s.length e.h1s⟩,
   ⟨"keyword_exact_structure", exactStatus e keyword,
     CheckData.kw3 (okIntroExact e.intro keyword) (okH2Exact e.h2s keyword)
       (okConcExact e.conclusion keyword) (missingExact e keyword)⟩,
   ⟨"structure", structureStatus e.h2s.length, CheckData.h2count e.h2s.length⟩,
   ⟨"images_alt", imgStatus e.images_count e.images_missing_alt_count,
     CheckData.imagesData e.images_count e.images_missing_alt_count⟩,
   ⟨"readability", readStatus e.long_paragraphs_count,
     CheckData.readabilityData e.avg_words_per_paragraph e.long_paragraphs_count⟩,
   ⟨"lexical", lexStatus e keyword,
     CheckData.lexicalData (lexFound e keyword) (lexExpected keyword)
       (lexFound e keyword).length⟩]

/-! ## Status aggregation -/

/-- A check is a red structurant for revision 1 when its status is red and
its id is `title`, `h1` or `keyword_exact_structure`. -/
def isRedStructurant1 (c : Check) : Bool :=
  c.status == "red" &&
    (c.id == "title" || c.id == "h1" || c.id == "keyword_exact_structure")

/-- `statusGlobalFromChecks` (revision 1): red on a red structurant, orange
on any other red or any orange, green otherwise. -/
def statusGlobalFromChecks (checks : List Check) : String :=
  if checks.any isRedStructurant1 then "red"
  else if checks.any (fun c => c.status == "red") then "orange"
  else if checks.any (fun c => c.status == "orange") then "orange"
  else "green"

/-- A check is a red structurant for revision 2 when its status is red and
its id is `title`, `h1` or `keyword_structure`. -/
def isRedStructurant2 (c : Check) : Bool :=
  c.status == "red" &&
    (c.id == "title" || c.id == "h1" || c.id == "keyword_structure")

/-- `statusGlobalFromChecks` (revision 2): same escalation policy with
`keyword_structure` as the third structurant id. -/
def statusGlobalFromChecks2 (checks : List Check) : String :=
  if checks.any isRedStructurant2 then "red"
  else if checks.any (fun c => c.status == "red") then "orange"
  else if checks.any (fun c => c.status == "orange") then "orange"
  else "green"

/-! ## Revision 2 variants of the diverging blocks -/

/-- Title block, revision 2: same thresholds over the raw `title.length`
(UTF-16 units, no cleanup). -/
def titleStatus2 (title : Str) : String :=
  if 0 < utf16Len title then
    if 45 ≤ utf16Len title ∧ utf16Len title ≤ 60 then "green" else "orange"
  else "red"

/-- Meta-description block, revision 2: green band 140–160 over the raw
`meta.length`, orange on any other non-empty length, red when empty. -/
def metaStatus2 (meta : Str) : String :=
  if 0 < utf16Len meta then
    if 140 ≤ utf16Len meta ∧ utf16Len meta ≤ 160 then "green" else "orange"
  else "red"

/-- Revision 2 `okH1`: the space-joined H1s contain the keyword. -/
def okH1KS (h1s : List Str) (keyword : Str) : Bool :=
  if h1s.isEmpty then false
  else containsKeyword (List.intercalate (str " ") h1s) keyword

/-- Revision 2 `okIntro`. -/
def okIntroKS (intro keyword : Str) : Bool :=
  if intro.isEmpty then false else containsKeyword intro keyword

/-- Revision 2 `okH2`. -/
def okH2KS (h2s : List Str) (keyword : Str) : Bool :=
  if h2s.isEmpty then false
  else h2s.any fun h2 => containsKeyword h2 keyword

/-- Revision 2 `okConc`. -/
def okConcKS (conclusion keyword : Str) : Bool :=
  if conclusion.isEmpty then false else containsKeyword conclusion keyword

/-- Revision 2 `okCount` over the four locations H1, intro, H2, conclusion. -/
def okCountKS (e : Extracted) (keyword : Str) : Nat :=
  (([okH1KS e.h1s keyword, okIntroKS e.intro keyword, okH2KS e.h2s keyword,
     okConcKS e.conclusion keyword]).filter fun b => b).length

/-- Keyword-in-structure block, revision 2 (`keyword_structure`): green on
4 of 4 locations, orange on 2 or 3, red otherwise. -/
def ksStatus2 (e : Extracted) (keyword : Str) : String :=
  if okCountKS e keyword = 4 then "green"
  else if 2 ≤ okCountKS e keyword then "orange"
  else "red"

/-! ## The route-handler pipeline (revision 1) -/

/-- The plain structural page snapshot the excluded HTML parser produces. -/
structure PageSnapshot where
  title : Str
  metaDescription : Str
  h1s : List Str
  h2s : List Str
  paragraphs : List Str
  images : List Image
deriving DecidableEq, Repr

/-- The entirely empty snapshot. -/
def emptySnap : PageSnapshot := ⟨[], [], [], [], [], []⟩

/-- `Math.round(sum / n)` for natural `sum` and positive `n`. -/
def jsRound (sum n : Nat) : Nat := (2 * sum + n) / (2 * n)

/-- The `extracted` record the route handler builds from a snapshot. -/
def extractedOf (snap : PageSnapshot) : Extracted :=
  let paragraphs := extractParagraphs snap.paragraphs
  let wcs := paragraphs.map wordsCount
  let images := extractImages snap.images
  { title := cleanText snap.title
    meta_description := cleanText snap.metaDescription
    h1s := snap.h1s.map cleanText
    h2s := snap.h2s.map cleanText
    intro := extractFirstParagraph snap.paragraphs
    conclusion := extractLastParagraph snap.paragraphs
    images_count := images.length
    images_missing_alt_count := (images.filter fun i => i.alt.isEmpty).length
    avg_words_per_paragraph :=
      if wcs.isEmpty then 0 else jsRound wcs.sum wcs.length
    long_paragraphs_count := (wcs.filter fun n => 120 < n).length }

/-- The audit computation of the route handler: the eight check results and
the aggregated overall status. -/
def runAudit (snap : PageSnapshot) (keyword : Str) : List Check × String :=
  let checks := computeChecks (extractedOf snap) keyword
  (checks, statusGlobalFromChecks checks)

/-! ## The fuzzy token matcher, modelled from the specification

No fuzzy matching exists in `src/server.js`; the following definitions
follow the words of the specification (sections 4.2 and 8) and exist only to
compare the claimed matching discipline with the substring matching the
source actually performs. -/

/-- Modelled from the spec: one update step of the single-row Levenshtein
dynamic program (`qj = min(pj + 1, q(j-1) + 1, p(j-1) + cost)`). -/
def stepAux (ca : Char) : Str → List Nat → Nat → List Nat
  | [], _, _ => []
  | _ :: _, [], _ => []
  | cb :: bs, pprev :: prest, qprev =>
    let pj := prest.headD 0
    let qj := min (pj + 1)
      (min (qprev + 1) (pprev + if ca = cb then 0 else 1))
    qj :: stepAux ca bs prest qj

/-- Modelled from the spec: extend the current row by one character of the
first string. -/
def stepRow (ca : Char) (b : Str) (prev : List Nat) : List Nat :=
  (prev.headD 0 + 1) :: stepAux ca b prev (prev.headD 0 + 1)

/-- Modelled from the spec: classic single-row dynamic-programming
Levenshtein edit distance, missing from the source. -/
def editDistance (a b : Str) : Nat :=
  (a.foldl (fun row ca => stepRow ca b row) (List.range (b.length + 1))).getLastD 0

/-- Modelled from the spec: `tokenize(keyword)` — normalized keyword split on
spaces, keeping tokens of length at least 3; missing from the source. -/
def tokenize (keyword : Str) : List Str :=
  (jsSplit ' ' (normalizeForMatch keyword)).filter fun w => 3 ≤ w.length

/-- Modelled from the spec: `tokenPresent(text, token)` — substring match, or
a fuzzy match against a single word within tolerance 1 when the normalized
token has length at least 6; missing from the source. -/
def tokenPresent (text token : Str) : Bool :=
  let t := normalizeForMatch text
  let k := normalizeForMatch token
  if t.isEmpty || k.isEmpty then false
  else if containsSub t k then true
  else
    let tol : Nat := if 6 ≤ k.length then 1 else 0
    (jsSplit ' ' t).any fun w =>
      (w.length - k.length ≤ tol ∧ k.length - w.length ≤ tol) ∧
        editDistance w k ≤ tol

/-- Modelled from the spec: `allTokensPresent(text, tokens)` — every token
present, with the empty token set never satisfied; missing from the source. -/
def allTokensPresent (text : Str) (tokens : List Str) : Bool :=
  !tokens.isEmpty && tokens.all fun tok => tokenPresent text tok

/-- Modelled from the spec: the keyword-structure status C1 claims — fuzzy
all-token presence in the intro, in at least one H2 and in the conclusion,
green on 3 of 3 locations, orange on exactly 2, red otherwise. -/
def specKeywordStructureStatus (e : Extracted) (keyword : Str) : String :=
  let toks := tokenize keyword
  let sI := allTokensPresent e.intro toks
  let sH := e.h2s.any fun h2 => allTokensPresent h2 toks
  let sC := allTokensPresent e.conclusion toks
  let n := (([sI, sH, sC]).filter fun b => b).length
  if n = 3 then "green" else if n = 2 then "orange" else "red"

/-! ## Helper lemmas -/

/-- De-duplication only keeps elements of the input list. -/
theorem mem_dedupFirstAux {x : Str} :
    ∀ (seen l : List Str), x ∈ dedupFirstAux seen l → x ∈ l := by
  intro seen l
  induction l generalizing seen with
  | nil => simp [dedupFirstAux]
  | cons a as ih =>
    intro hx
    unfold dedupFirstAux at hx
    split_ifs at hx with ha
    · exact List.mem_cons_of_mem a (ih seen hx)
    · rcases List.mem_cons.mp hx with h | h
      · exact h ▸ List.mem_cons_self a as
      · exact List.mem_cons_of_mem a (ih (a :: seen) h)

/-- Every expected lexical term is non-empty: the generic terms are concrete
non-empty words and the keyword parts pass a length-4 filter. -/
theorem lexExpected_ne_nil (kw : Str) :
    ∀ term ∈ lexExpected kw, term.isEmpty = false := by
  intro term hterm
  have hmem : term ∈ genericTerms ++ kwParts kw :=
    mem_dedupFirstAux [] _ hterm
  rcases List.mem_append.mp hmem with hg | hk
  · exact (by decide : ∀ t ∈ genericTerms, t.isEmpty = false) term hg
  · have hlen : 4 ≤ term.length := by
      have := (List.mem_filter.mp hk).2
      exact of_decide_eq_true this
    cases term with
    | nil => simp at hlen
    | cons c cs => rfl

/-- If the whole normalized keyword is empty, `containsKeywordExact` is false
on every text. -/
theorem containsKeywordExact_of_empty {kw : Str}
    (h : normalizeForMatch kw = []) :
    ∀ t, containsKeywordExact t kw = false := by
  intro t
  unfold containsKeywordExact
  rw [h]
  simp

/-! ## Claims -/

/-- C6 (amended): the title check is red exactly when its length measure is
zero, green exactly when it is between 45 and 60, and orange otherwise —
with revision 1 measuring real characters (Unicode code points of the
cleaned title, `charCount`) and revision 2 measuring raw UTF-16 storage
units (`title.length`, embedded as `utf16Len`). -/
theorem title_status_characterization (title : Str) :
    (titleStatus title = "red" ↔ charCount title = 0)
  ∧ (titleStatus title = "green" ↔
      45 ≤ charCount title ∧ charCount title ≤ 60)
  ∧ (titleStatus title = "orange" ↔
      0 < charCount title ∧ ¬(45 ≤ charCount title ∧ charCount title ≤ 60))
  ∧ (titleStatus2 title = "red" ↔ utf16Len title = 0)
  ∧ (titleStatus2 title = "green" ↔
      45 ≤ utf16Len title ∧ utf16Len title ≤ 60)
  ∧ (titleStatus2 title = "orange" ↔
      0 < utf16Len title ∧ ¬(45 ≤ utf16Len title ∧ utf16Len title ≤ 60)) := by
  unfold titleStatus titleStatus2
  refine ⟨?_, ?_, ?_, ?_, ?_, ?_⟩ <;>
    (split_ifs <;> simp_all <;> omega)

set_option maxRecDepth 4000 in
/-- C6 counterexample: a title of 60 real characters containing one astral
character (so 61 UTF-16 units) is green for revision 1 but orange for
revision 2, where the claim requires green. -/
theorem title_revision2_astral_counterexample :
    charCount (List.replicate 59 'a' ++ [Char.ofNat 0x1F600]) = 60
  ∧ titleStatus (List.replicate 59 'a' ++ [Char.ofNat 0x1F600]) = "green"
  ∧ titleStatus2 (List.replicate 59 'a' ++ [Char.ofNat 0x1F600]) = "orange" := by
  decide

/-- C5 (amended): the meta-description check is red exactly when empty and
orange on every non-empty length outside the green band, so no non-empty
meta description is red; the green band is 120–160 real characters in
revision 1 but 140–160 raw UTF-16 units in revision 2. -/
theorem meta_description_status_characterization (meta : Str) :
    (metaStatus meta = "red" ↔ charCount meta = 0)
  ∧ (metaStatus meta = "green" ↔
      120 ≤ charCount meta ∧ charCount meta ≤ 160)
  ∧ (metaStatus meta = "orange" ↔
      0 < charCount meta ∧ ¬(120 ≤ charCount meta ∧ charCount meta ≤ 160))
  ∧ (metaStatus2 meta = "red" ↔ utf16Len meta = 0)
  ∧ (metaStatus2 meta = "green" ↔
      140 ≤ utf16Len meta ∧ utf16Len meta ≤ 160)
  ∧ (metaStatus2 meta = "orange" ↔
      0 < utf16Len meta ∧ ¬(140 ≤ utf16Len meta ∧ utf16Len meta ≤ 160)) := by
  unfold metaStatus metaStatus2
  refine ⟨?_, ?_, ?_, ?_, ?_, ?_⟩ <;>
    (split_ifs <;> simp_all <;> omega)

set_option maxRecDepth 4000 in
/-- C5 counterexample: a 130-character meta description is inside the claimed
120–160 green band (and is green for revision 1), yet revision 2 scores it
orange, where the claim requires green. -/
theorem meta_description_revision2_counterexample :
    120 ≤ charCount (List.replicate 130 'a')
  ∧ charCount (List.replicate 130 'a') ≤ 160
  ∧ metaStatus (List.replicate 130 'a') = "green"
  ∧ metaStatus2 (List.replicate 130 'a') = "orange" := by
  decide

/-- C2: over any statuses of the fixed eight checks, the aggregated status is
red exactly when a structurant check (title, h1, keyword_structure) is red;
orange exactly when no structurant is red but some check is red or orange;
green exactly when no check is red or orange. In particular a red title with
all other checks green aggregates to red, and a red images_alt with all other
checks green aggregates to orange. -/
theorem statusGlobal_escalation_policy
    (t m h k st im r l : String) (d1 d2 d3 d4 d5 d6 d7 d8 dg : CheckData) :
    (statusGlobalFromChecks2
        [⟨"title", t, d1⟩, ⟨"meta_description", m, d2⟩, ⟨"h1", h, d3⟩,
         ⟨"keyword_structure", k, d4⟩, ⟨"structure", st, d5⟩,
         ⟨"images_alt", im, d6⟩, ⟨"readability", r, d7⟩, ⟨"lexical", l, d8⟩]
      = "red" ↔ (t = "red" ∨ h = "red" ∨ k = "red"))
  ∧ (statusGlobalFromChecks2
        [⟨"title", t, d1⟩, ⟨"meta_description", m, d2⟩, ⟨"h1", h, d3⟩,
         ⟨"keyword_structure", k, d4⟩, ⟨"structure", st, d5⟩,
         ⟨"images_alt", im, d6⟩, ⟨"readability", r, d7⟩, ⟨"lexical", l, d8⟩]
      = "orange" ↔
        (¬(t = "red" ∨ h = "red" ∨ k = "red") ∧
          (t = "red" ∨ m = "red" ∨ h = "red" ∨ k = "red" ∨ st = "red" ∨
           im = "red" ∨ r = "red" ∨ l = "red" ∨
           t = "orange" ∨ m = "orange" ∨ h = "orange" ∨ k = "orange" ∨
           st = "orange" ∨ im = "orange" ∨ r = "orange" ∨ l = "orange")))
  ∧ (statusGlobalFromChecks2
        [⟨"title", t, d1⟩, ⟨"meta_description", m, d2⟩, ⟨"h1", h, d3⟩,
         ⟨"keyword_structure", k, d4⟩, ⟨"structure", st, d5⟩,
         ⟨"images_alt", im, d6⟩, ⟨"readability", r, d7⟩, ⟨"lexical", l, d8⟩]
      = "green" ↔
        (¬(t = "red" ∨ m = "red" ∨ h = "red" ∨ k = "red" ∨ st = "red" ∨
           im = "red" ∨ r = "red" ∨ l = "red") ∧
         ¬(t = "orange" ∨ m = "orange" ∨ h = "orange" ∨ k = "orange" ∨
           st = "orange" ∨ im = "orange" ∨ r = "orange" ∨ l = "orange")))
  ∧ statusGlobalFromChecks2
        [⟨"title", "red", dg⟩, ⟨"meta_description", "green", dg⟩,
         ⟨"h1", "green", dg⟩, ⟨"keyword_structure", "green", dg⟩,
         ⟨"structure", "green", dg⟩, ⟨"images_alt", "green", dg⟩,
         ⟨"readability", "green", dg⟩, ⟨"lexical", "green", dg⟩] = "red"
  ∧ statusGlobalFromChecks2
        [⟨"title", "green", dg⟩, ⟨"meta_description", "green", dg⟩,
         ⟨"h1", "green", dg⟩, ⟨"keyword_structure", "green", dg⟩,
         ⟨"structure", "green", dg⟩, ⟨"images_alt", "red", dg⟩,
         ⟨"readability", "green", dg⟩, ⟨"lexical", "green", dg⟩] = "orange" := by
  refine ⟨?_, ?_, ?_, ?_, ?_⟩ <;>
    simp only [statusGlobalFromChecks2, isRedStructurant2,
      List.any_cons, List.any_nil] <;>
    simp <;>
    split_ifs <;>
    simp_all <;>
    tauto

/-- C1 (amended): the keyword-in-structure check matches the exact normalized
keyword phrase by substring containment, not by fuzzy per-token presence.
Revision 1 (`keyword_exact_structure`, the fourth check of `computeChecks`)
is green exactly when the phrase is found in the intro, in at least one H2
and in the conclusion, orange exactly when 2 of those 3 locations are
satisfied (with the unmet locations listed in `data.missing`, e.g.
`missing = ["conclusion"]` when only the conclusion fails), and red when at
most one is satisfied. Revision 2 (`keyword_structure`) additionally tests
the H1 and is green only when all four locations are satisfied. -/
theorem keyword_structure_characterization (e : Extracted) (kw : Str) :
    ((computeChecks e kw).getD 3 cDefault).id = "keyword_exact_structure"
  ∧ (((computeChecks e kw).getD 3 cDefault).status = "green" ↔
      okIntroExact e.intro kw = true ∧ okH2Exact e.h2s kw = true ∧
      okConcExact e.conclusion kw = true)
  ∧ (((computeChecks e kw).getD 3 cDefault).status = "orange" ↔
      ((okIntroExact e.intro kw = true ∧ okH2Exact e.h2s kw = true ∧
        okConcExact e.conclusion kw = false) ∨
       (okIntroExact e.intro kw = true ∧ okH2Exact e.h2s kw = false ∧
        okConcExact e.conclusion kw = true) ∨
       (okIntroExact e.intro kw = false ∧ okH2Exact e.h2s kw = true ∧
        okConcExact e.conclusion kw = true)))
  ∧ (((computeChecks e kw).getD 3 cDefault).status = "red" ↔
      ((okIntroExact e.intro kw = false ∧ okH2Exact e.h2s kw = false) ∨
       (okIntroExact e.intro kw = false ∧ okConcExact e.conclusion kw = false) ∨
       (okH2Exact e.h2s kw = false ∧ okConcExact e.conclusion kw = false)))
  ∧ (okIntroExact e.intro kw = true → okH2Exact e.h2s kw = true →
      okConcExact e.conclusion kw = false →
      missingExact e kw = ["conclusion"])
  ∧ (ksStatus2 e kw = "green" ↔
      okH1KS e.h1s kw = true ∧ okIntroKS e.intro kw = true ∧
      okH2KS e.h2s kw = true ∧ okConcKS e.conclusion kw = true) := by
  have hrec : (computeChecks e kw).getD 3 cDefault =
      ⟨"keyword_exact_structure", exactStatus e kw,
        CheckData.kw3 (okIntroExact e.intro kw) (okH2Exact e.h2s kw)
          (okConcExact e.conclusion kw) (missingExact e kw)⟩ := rfl
  rw [hrec]
  refine ⟨rfl, ?_, ?_, ?_, ?_, ?_⟩
  · rcases hI : okIntroExact e.intro kw <;>
      rcases hH : okH2Exact e.h2s kw <;>
      rcases hC : okConcExact e.conclusion kw <;>
      simp [exactStatus, exactCount, hI, hH, hC]
  · rcases hI : okIntroExact e.intro kw <;>
      rcases hH : okH2Exact e.h2s kw <;>
      rcases hC : okConcExact e.conclusion kw <;>
      simp [exactStatus, exactCount, hI, hH, hC]
  · rcases hI : okIntroExact e.intro kw <;>
      rcases hH : okH2Exact e.h2s kw <;>
      rcases hC : okConcExact e.conclusion kw <;>
      simp [exactStatus, exactCount, hI, hH, hC]
  · intro hI hH hC
    simp [missingExact, hI, hH, hC]
  · rcases h1 : okH1KS e.h1s kw <;>
      rcases hI : okIntroKS e.intro kw <;>
      rcases hH : okH2KS e.h2s kw <;>
      rcases hC : okConcKS e.conclusion kw <;>
      simp [ksStatus2, okCountKS, h1, hI, hH, hC]

/-- C1 witness: a page whose intro and single H2 contain the exact keyword
phrase while the conclusion does not is orange with
`missing = ["conclusion"]`. -/
theorem keyword_structure_characterization_witness :
    missingExact
      { title := []
        meta_description := []
        h1s := []
        h2s := [str "le coaching seo en pratique"]
        intro := str "decouvre le coaching seo pour ton site des maintenant"
        conclusion := str "merci et a bientot pour la suite"
        images_count := 0
        images_missing_alt_count := 0
        avg_words_per_paragraph := 0
        long_paragraphs_count := 0 }
      (str "coaching seo") = ["conclusion"] :=
  (keyword_structure_characterization
      { title := []
        meta_description := []
        h1s := []
        h2s := [str "le coaching seo en pratique"]
        intro := str "decouvre le coaching seo pour ton site des maintenant"
        conclusion := str "merci et a bientot pour la suite"
        images_count := 0
        images_missing_alt_count := 0
        avg_words_per_paragraph := 0
        long_paragraphs_count := 0 }
      (str "coaching seo")).2.2.2.2.1 (by decide) (by decide) (by decide)

/-- C1 counterexample: a page whose intro, single H2 and conclusion each
contain both keyword tokens (so the claimed fuzzy all-token rule is
satisfied at all three locations and demands green) but never the exact
phrase, so revision 1's `keyword_exact_structure` check is red. -/
theorem keyword_structure_fuzzy_counterexample :
    specKeywordStructureStatus
      { title := []
        meta_description := []
        h1s := []
        h2s := [str "pourquoi le seo demande du coaching"]
        intro := str "le coaching de seo aide beaucoup sur la duree vraiment"
        conclusion := str "le coaching avec du seo reste la meilleure approche"
        images_count := 0
        images_missing_alt_count := 0
        avg_words_per_paragraph := 0
        long_paragraphs_count := 0 }
      (str "coaching seo") = "green"
  ∧ ((computeChecks
      { title := []
        meta_description := []
        h1s := []
        h2s := [str "pourquoi le seo demande du coaching"]
        intro := str "le coaching de seo aide beaucoup sur la duree vraiment"
        conclusion := str "le coaching avec du seo reste la meilleure approche"
        images_count := 0
        images_missing_alt_count := 0
        avg_words_per_paragraph := 0
        long_paragraphs_count := 0 }
      (str "coaching seo")).getD 3 cDefault).status = "red" := by
  decide

/-- C3 (amended): the source grants no fuzzy tolerance at any token length:
whenever the normalized token does not literally occur as a substring of the
normalized text, `containsKeyword` judges it not present — also for
normalized tokens of length 6 or more. -/
theorem containsKeyword_no_fuzzy_tolerance (text token : Str)
    (h : containsSub (normalizeForMatch text) (normalizeForMatch token) = false) :
    containsKeyword text token = false := by
  unfold containsKeyword
  simp only []
  split_ifs <;> simp_all

/-- C3 witness: the short token of the specification's own example —
`"seo"` does not match `"sao"` in `"visibilite sao"`. -/
theorem containsKeyword_no_fuzzy_tolerance_witness :
    containsKeyword (str "visibilite sao") (str "seo") = false :=
  containsKeyword_no_fuzzy_tolerance (str "visibilite sao") (str "seo")
    (by decide)

/-- C3 counterexample: for the 9-letter token `"marketing"` against a text
containing `"marketin"`, the claimed tolerance-1 rule judges the token
present, but the source's `containsKeyword` judges it absent — the claimed
tolerance 1 for normalized length at least 6 does not exist in the code. -/
theorem tokenPresent_fuzzy_counterexample :
    tokenPresent (str "du marketin pour tous") (str "marketing") = true
  ∧ (normalizeForMatch (str "marketing")).length = 9
  ∧ containsKeyword (str "du marketin pour tous") (str "marketing") = false := by
  decide

/-- C7 (amended): the intro is the first and the conclusion the last cleaned
paragraph whose JavaScript length (UTF-16 units, `t.length` in the source —
not the real code-point count) is at least 40, and when exactly one
paragraph qualifies the intro equals the conclusion. -/
theorem intro_conclusion_extraction (ps : List Str) :
    extractFirstParagraph ps =
      (((ps.map cleanText).filter fun t => 40 ≤ utf16Len t).headD [])
  ∧ extractLastParagraph ps =
      (((ps.map cleanText).filter fun t => 40 ≤ utf16Len t).getLastD [])
  ∧ (((ps.map cleanText).filter fun t => 40 ≤ utf16Len t).length = 1 →
      extractFirstParagraph ps = extractLastParagraph ps) := by
  refine ⟨rfl, rfl, ?_⟩
  intro h
  obtain ⟨x, hx⟩ := List.length_eq_one.mp h
  unfold extractFirstParagraph extractLastParagraph
  rw [hx]
  rfl

/-- C7 witness: with a single qualifying paragraph the intro and the
conclusion coincide. -/
theorem intro_conclusion_extraction_witness :
    extractFirstParagraph
        [str "cette page parle de coaching seo editorial pour ton site"] =
      extractLastParagraph
        [str "cette page parle de coaching seo editorial pour ton site"] :=
  (intro_conclusion_extraction
      [str "cette page parle de coaching seo editorial pour ton site"]).2.2
    (by decide)

/-- C7 counterexample: a paragraph of 39 real characters whose last character
is astral has JavaScript length 40, so the source keeps it as the intro,
while the claimed real-character-count filter would reject it and leave the
intro empty. -/
theorem paragraph_filter_utf16_counterexample :
    charCount (List.replicate 38 'a' ++ [Char.ofNat 0x1F600]) = 39
  ∧ utf16Len (List.replicate 38 'a' ++ [Char.ofNat 0x1F600]) = 40
  ∧ extractFirstParagraph [List.replicate 38 'a' ++ [Char.ofNat 0x1F600]] =
      List.replicate 38 'a' ++ [Char.ofNat 0x1F600] := by
  decide

/-- C8: the audit computation is deterministic — two runs on the same
snapshot and keyword produce identical outcomes (the embedding is a pure
function of its two arguments, mirroring a source that reads only its
parameters and module-level constants). -/
theorem runAudit_deterministic (s1 s2 : PageSnapshot) (k1 k2 : Str)
    (hs : s1 = s2) (hk : k1 = k2) : runAudit s1 k1 = runAudit s2 k2 := by
  subst hs
  subst hk
  rfl

/-- C8 witness: two identical runs on the empty snapshot agree. -/
theorem runAudit_deterministic_witness :
    runAudit emptySnap (str "coaching seo") =
      runAudit emptySnap (str "coaching seo") :=
  runAudit_deterministic emptySnap emptySnap
    (str "coaching seo") (str "coaching seo") rfl rfl

/-- C9: an image whose `src` cleans to the empty string is excluded entirely,
so when every image of the snapshot has a whitespace-only (or empty) `src`
the audit counts zero images, counts zero missing alts, and the `images_alt`
check is red even if the image list is non-empty. -/
theorem images_empty_src_excluded (snap : PageSnapshot) (kw : Str)
    (h : ∀ i ∈ snap.images, cleanText i.src = []) :
    extractImages snap.images = []
  ∧ (extractedOf snap).images_count = 0
  ∧ (extractedOf snap).images_missing_alt_count = 0
  ∧ ((computeChecks (extractedOf snap) kw).getD 5 cDefault).id = "images_alt"
  ∧ ((computeChecks (extractedOf snap) kw).getD 5 cDefault).status = "red" := by
  have hnil : extractImages snap.images = [] := by
    unfold extractImages
    apply List.filter_eq_nil_iff.mpr
    intro i hi
    obtain ⟨j, hj, rfl⟩ := List.mem_map.mp hi
    simp [h j hj, utf16Len]
  have hcount : (extractedOf snap).images_count = 0 := by
    simp [extractedOf, hnil]
  have hmiss : (extractedOf snap).images_missing_alt_count = 0 := by
    simp [extractedOf, hnil]
  have hrec : (computeChecks (extractedOf snap) kw).getD 5 cDefault =
      ⟨"images_alt",
        imgStatus (extractedOf snap).images_count
          (extractedOf snap).images_missing_alt_count,
        CheckData.imagesData (extractedOf snap).images_count
          (extractedOf snap).images_missing_alt_count⟩ := rfl
  refine ⟨hnil, hcount, hmiss, by rw [hrec], ?_⟩
  rw [hrec]
  show imgStatus _ _ = "red"
  rw [hcount, hmiss]
  rfl

/-- C9 witness: a snapshot with one image whose `src` is whitespace-only
counts zero images and its `images_alt` check is red. -/
theorem images_empty_src_excluded_witness :
    (extractedOf ⟨[], [], [], [], [],
        [⟨str "   ", str "decorative"⟩]⟩).images_count = 0
  ∧ ((computeChecks
        (extractedOf ⟨[], [], [], [], [],
          [⟨str "   ", str "decorative"⟩]⟩)
        (str "coaching seo")).getD 5 cDefault).status = "red" :=
  ⟨(images_empty_src_excluded
      ⟨[], [], [], [], [], [⟨str "   ", str "decorative"⟩]⟩
      (str "coaching seo") (by decide)).2.1,
   (images_empty_src_excluded
      ⟨[], [], [], [], [], [⟨str "   ", str "decorative"⟩]⟩
      (str "coaching seo") (by decide)).2.2.2.2⟩

/-- On the empty snapshot the body text is empty, so no non-empty expected
lexical term is found, whatever the keyword. -/
theorem lexFound_emptySnap (kw : Str) :
    lexFound (extractedOf emptySnap) kw = [] := by
  have hbody : bodyText (extractedOf emptySnap) = [] := by decide
  unfold lexFound
  apply List.filter_eq_nil_iff.mpr
  intro term hterm
  rw [hbody]
  have hne := lexExpected_ne_nil kw term hterm
  simp [containsSub, hne]

/-- C4 (amended): the audit of the entirely empty snapshot is a fully
defined outcome, whatever the keyword: the seven checks other than
readability resolve to red, the readability check resolves to green (an
empty page has zero long paragraphs, which the readability rule scores
green), and the overall status is red. -/
theorem empty_snapshot_audit (kw : Str) :
    (runAudit emptySnap kw).1.map Check.status =
      ["red", "red", "red", "red", "red", "red", "green", "red"]
  ∧ (runAudit emptySnap kw).2 = "red" := by
  have hlexf := lexFound_emptySnap kw
  have hlex : lexStatus (extractedOf emptySnap) kw = "red" := by
    simp [lexStatus, hlexf]
  constructor
  · show (computeChecks (extractedOf emptySnap) kw).map Check.status = _
    simp only [computeChecks, List.map]
    rw [hlex]
    rfl
  · rfl

/-- C4 counterexample: on the entirely empty snapshot the readability check
is green, not red, so not every check resolves to its red branch. -/
theorem empty_snapshot_readability_counterexample :
    ((runAudit emptySnap (str "coaching seo")).1.getD 6 cDefault).id =
      "readability"
  ∧ ((runAudit emptySnap (str "coaching seo")).1.getD 6 cDefault).status =
      "green"
  ∧ ("green" : String) ≠ "red" := by
  decide

/-- C10: when the keyword normalizes to the empty string every
keyword-presence test is false, so revision 1's keyword-in-structure check is
red and, the check being structurant, the overall status is red regardless of
the page content. -/
theorem empty_keyword_forces_red (e : Extracted) (kw : Str)
    (h : normalizeForMatch kw = []) :
    ((computeChecks e kw).getD 3 cDefault).status = "red"
  ∧ statusGlobalFromChecks (computeChecks e kw) = "red" := by
  have hcke := containsKeywordExact_of_empty h
  have hI : okIntroExact e.intro kw = false := by
    simp [okIntroExact, hcke]
  have hH : okH2Exact e.h2s kw = false := by
    simp [okH2Exact, hcke]
  have hC : okConcExact e.conclusion kw = false := by
    simp [okConcExact, hcke]
  have hstat : exactStatus e kw = "red" := by
    simp [exactStatus, exactCount, hI, hH, hC]
  constructor
  · show exactStatus e kw = "red"
    exact hstat
  · unfold statusGlobalFromChecks
    have hany : (computeChecks e kw).any isRedStructurant1 = true := by
      apply List.any_eq_true.mpr
      refine ⟨⟨"keyword_exact_structure", exactStatus e kw,
        CheckData.kw3 (okIntroExact e.intro kw) (okH2Exact e.h2s kw)
          (okConcExact e.conclusion kw) (missingExact e kw)⟩, ?_, ?_⟩
      · simp [computeChecks]
      · simp [isRedStructurant1, hstat]
    rw [hany]
    simp

/-- C10 witness: a punctuation-only keyword normalizes to empty and forces a
red keyword check and a red overall status on an arbitrary page. -/
theorem empty_keyword_forces_red_witness :
    ((computeChecks
        { title := str "Coaching SEO editorial pour redactrices web motivees"
          meta_description := str "une description"
          h1s := [str "Coaching SEO"]
          h2s := [str "Pourquoi", str "Comment"]
          intro := str "cette page parle de coaching seo editorial pour ton site"
          conclusion := str "cette page parle de coaching seo editorial pour ton site"
          images_count := 2
          images_missing_alt_count := 0
          avg_words_per_paragraph := 12
          long_paragraphs_count := 0 }
        (str "!!!")).getD 3 cDefault).status = "red"
  ∧ statusGlobalFromChecks
      (computeChecks
        { title := str "Coaching SEO editorial pour redactrices web motivees"
          meta_description := str "une description"
          h1s := [str "Coaching SEO"]
          h2s := [str "Pourquoi", str "Comment"]
          intro := str "cette page parle de coaching seo editorial pour ton site"
          conclusion := str "cette page parle de coaching seo editorial pour ton site"
          images_count := 2
          images_missing_alt_count := 0
          avg_words_per_paragraph := 12
          long_paragraphs_count := 0 }
        (str "!!!")) = "red" :=
  empty_keyword_forces_red
    { title := str "Coaching SEO editorial pour redactrices web motivees"
      meta_description := str "une description"
      h1s := [str "Coaching SEO"]
      h2s := [str "Pourquoi", str "Comment"]
      intro := str "cette page parle de coaching seo editorial pour ton site"
      conclusion := str "cette page parle de coaching seo editorial pour ton site"
      images_count := 2
      images_missing_alt_count := 0
      avg_words_per_paragraph := 12
      long_paragraphs_count := 0 }
    (str "!!!") (by decide)

end AuditSeo
